import Mathlib

/-!
Verification development for the sizemeup repository (rpetit3/sizemeup).

The Python code is shallowly embedded in Lean: rows and dictionaries become
association lists with CPython dict semantics (insertion order preserved,
assignment to an existing key updates in place, new keys appended at the end),
pure string manipulation is modelled structurally over the character list of
the string, and operations that can raise a Python exception (KeyError,
TypeError) return an `Option`, with `none` standing for the raised exception.
Remote HTTP responses and remotely fetched tables are inputs to the embedded
functions: the functions are verified for every possible input.
-/

namespace Sizemeup

/-- A CPython `dict` with string keys, modelled as an association list kept in
insertion order.  All dictionaries built by the sizemeup code have string keys. -/
abbrev Dict (α : Type) := List (String × α)

/-- Membership test of a key, Python `k in d`. -/
def dmem {α : Type} : Dict α → String → Bool
  | [], _ => false
  | p :: d, k => if p.1 = k then true else dmem d k

/-- Lookup, Python `d[k]` (with `none` for a KeyError). -/
def dget {α : Type} : Dict α → String → Option α
  | [], _ => none
  | p :: d, k => if p.1 = k then some p.2 else dget d k

/-- Assignment `d[k] = v`: an existing key keeps its position and gets the new
value, a new key is appended at the end, exactly as in a CPython dict. -/
def dinsert {α : Type} (d : Dict α) (k : String) (v : α) : Dict α :=
  if dmem d k then d.map (fun p => if p.1 = k then (k, v) else p) else d ++ [(k, v)]

/-!
Python string primitives, modelled structurally over the character list of the
string so that every use reduces by kernel computation.  `Char.isDigit` is the
ASCII digit test; Python `str.isdigit` also accepts some further Unicode
digits, which never occur in this repository's data.
-/

/-- Python `str.split(sep)` for a one-character separator. -/
def splitChars (sep : Char) : List Char → List String
  | [] => [""]
  | c :: rest =>
    match splitChars sep rest with
    | [] => [""]
    | s :: ss =>
      if c = sep then ("") :: s :: ss else String.mk (c :: s.data) :: ss

/-- Python `line.split(sep)` with a one-character separator string. -/
def pySplit (s : String) (sep : Char) : List String := splitChars sep s.data

/-- Python `str.strip()`: drop leading and trailing whitespace. -/
def pyStrip (s : String) : String :=
  String.mk (((s.data.dropWhile Char.isWhitespace).reverse.dropWhile
    Char.isWhitespace).reverse)

/-- Python `str.lower()` (for the ASCII names in this repository). -/
def pyLower (s : String) : String := String.mk (s.data.map Char.toLower)

/-- Whether one character list is a prefix of another. -/
def charsStartWith : List Char → List Char → Bool
  | [], _ => true
  | _ :: _, [] => false
  | p :: ps, c :: cs => if p = c then charsStartWith ps cs else false

/-- Python `str.startswith(pre)`. -/
def pyStartsWith (s pre : String) : Bool := charsStartWith pre.data s.data

/-- Python `c in s` for a single character. -/
def pyContainsChar (s : String) (c : Char) : Bool :=
  s.data.any (fun a => a = c)

/-- Python `any(i.isdigit() for i in s)`. -/
def pyHasDigit (s : String) : Bool := s.data.any (fun a => a.isDigit)

/-- Python `str.isdigit()`: non-empty and every character a digit. -/
def pyIsDigit (s : String) : Bool := !s.data.isEmpty && s.data.all (fun a => a.isDigit)

/-!
Embedding of `src/sizemeup/ncbi.py`.

The taxonomy endpoint's JSON responses are inputs: one response is a list of
taxonomy nodes, each node optionally carrying a `taxonomy` object (NCBI omits
the field when the queried identifier had no resolvable match).  The network
transport, chunking of the request list, and `raise_for_status` on a non-2xx
chunk response sit outside the per-response row processing modelled here; the
claims under verification concern how the rows of a response are folded into
the result dictionaries.
-/

/-- The `taxonomy` object of one response node: ncbi.py reads its `tax_id`,
`organism_name` and `lineage` fields.  The lineage entries are JSON integers. -/
structure Taxonomy where
  tax_id : Nat
  organism_name : String
  lineage : List Nat
deriving DecidableEq

/-- One node of a taxonomy response; `taxonomy = none` models a node in which
the `taxonomy` field is absent. -/
structure TaxNode where
  taxonomy : Option Taxonomy
deriving DecidableEq

/-- ncbi.py lines 10-18, `NCBI_CATEGORY_IDS`: the fixed table of seven
top-level category identifiers, in the dict's insertion order.  The Python
keys are the decimal strings of these numbers and are converted with `int`
before the lineage test, so the table is modelled with the numbers directly. -/
def NCBI_CATEGORY_IDS : List (Nat × String) :=
  [(2, "bacteria"), (2157, "archaea"), (2759, "eukaryota"), (4751, "fungi"),
   (10239, "virus"), (12908, "unclassified"), (28384, "other")]

/-- ncbi.py lines 193-197: collect, in table order, the category names whose
identifier occurs in the node's lineage, and join them with commas.  The
`"unknown"` initially stored at line 190 is unconditionally overwritten by
this joined string at line 197. -/
def categoryOf (lineage : List Nat) : String :=
  String.intercalate (",")
    (NCBI_CATEGORY_IDS.filterMap
      (fun p => if lineage.contains p.1 then some p.2 else none))

/-- ncbi.py lines 186-197, one node of the row loop of `taxid2name`: the
node's `taxonomy` field is accessed unconditionally, so a node lacking the
field raises a KeyError, modelled by `none`.  On success the dictionary maps
the node's tax_id (as a decimal string) to its organism name and category. -/
def taxid2nameStep (acc : Option (Dict (String × String))) (row : TaxNode) :
    Option (Dict (String × String)) :=
  match acc with
  | none => none
  | some d =>
    match row.taxonomy with
    | none => none
    | some t =>
      some (dinsert d (toString t.tax_id) (t.organism_name, categoryOf t.lineage))

/-- ncbi.py lines 186-197: the row loop of `taxid2name` over one response. -/
def taxid2nameRows (rows : List TaxNode) : Option (Dict (String × String)) :=
  rows.foldl taxid2nameStep (some [])

/-- ncbi.py lines 272-276, one node of the row loop of `species2taxid`: a node
lacking the `taxonomy` field is skipped by the `if "taxonomy" in row` guard;
a resolved node maps the organism name to the tax_id string. -/
def species2taxidStep (acc : Dict String) (row : TaxNode) : Dict String :=
  match row.taxonomy with
  | none => acc
  | some t => dinsert acc t.organism_name (toString t.tax_id)

/-- ncbi.py lines 272-276: the row loop of `species2taxid` over one response. -/
def species2taxidRows (rows : List TaxNode) : Dict String :=
  rows.foldl species2taxidStep []

/-- An HTTP response, as seen by `requests.get`: a status code and a body. -/
structure HttpResponse where
  status : Nat
  body : String
deriving DecidableEq

/-- ncbi.py lines 98-114, `download_genome_sizes`, modelled on the contents of
the destination file: `existing` is the file's current contents (`none` when
the file does not exist) and the result is its contents after the call.  When
the file is absent or `force` is set, the code writes
`requests.get(NCBI_GENOME_SIZE_URL).content` unconditionally — the response's
status code is never inspected and no exception path exists for a non-2xx
response. -/
def download_genome_sizes (existing : Option String) (force : Bool)
    (response : HttpResponse) : String :=
  match existing, force with
  | some content, false => content
  | _, _ => response.body

/-!
Embedding of the merge pipeline of `src/sizemeup/cli/build.py`
(`sizemeup_build`, lines 145-215).

The Python code stores each table row as a dict; the pipeline reads and writes
exactly the fields `name`, `taxid`, `category`, `expected_ungapped_length`,
`source` and `method_determined` of every row it merges or serialises, so the
rows of the merged table are modelled as a fixed-field structure (`size` stands
for `expected_ungapped_length`, `method` for `method_determined`).  The inputs
of the pipeline — the resolved NCBI table produced by `get_genome_sizes`, the
parsed user-overrides table, the ATB species-to-samples grouping returned by
`parse_atb_file_list`, the name-to-taxid response of `species2taxid`, and the
per-sample `total_length` values of `parse_assembly_stats` (already through
Python `int`) — are parameters, so the merge is verified for every input.
-/

/-- One row of the merged genome-sizes table. -/
structure Record where
  name : String
  taxid : String
  category : String
  size : Nat
  source : String
  method : String
deriving DecidableEq

/-- build.py lines 164-168: add each user record only when no NCBI record
exists for its tax_id. -/
def mergeUser (ncbi user : Dict Record) : Dict Record :=
  user.foldl (fun acc p => if dmem acc p.1 then acc else dinsert acc p.1 p.2) ncbi

/-- build.py lines 170-173: the exclusion set, mapping each merged record's
name to its tax_id. -/
def speciesList (d : Dict Record) : Dict String :=
  d.foldl (fun acc p => dinsert acc (Prod.snd p).name p.1) []

/-- build.py line 198, the strain-name condition under which a candidate is
kept: `"_" not in name or not any(i.isdigit() for i in name)`. -/
def strainPass (name : String) : Bool :=
  !(pyContainsChar name ('_')) || !(pyHasDigit name)

/-- build.py lines 196-202, one iteration of the candidate loop: a species
name already in the exclusion set is dropped, a name failing `strainPass` is
skipped, and a surviving name needs at least `minGenomes` samples. -/
def atbStep (sl : Dict String) (minGenomes : Nat) (acc : Dict (List String))
    (p : String × List String) : Dict (List String) :=
  if dmem sl p.1 then acc
  else if strainPass p.1 then
    if minGenomes ≤ p.2.length then dinsert acc p.1 p.2 else acc
  else acc

/-- build.py lines 195-202: the ATB candidate species and their samples. -/
def atbSpecies (species : Dict (List String)) (sl : Dict String)
    (minGenomes : Nat) : Dict (List String) :=
  species.foldl (atbStep sl minGenomes) []

/-- build.py line 212, `int(statistics.mean(xs))` on a list of Python ints:
`statistics.mean` is the exact arithmetic mean and `int` truncates toward
zero, which is the floor on the nonnegative assembly lengths; the ATB sample
lists are nonempty.  This is natural-number division of the sum by the
length. -/
def meanFloor (xs : List Nat) : Nat := xs.sum / xs.length

/-- build.py lines 208-215: the record inserted for a resolved ATB candidate.
`stats` maps a sample identifier to the `int` of its `total_length` column. -/
def atbRecord (name : String) (taxid : String) (samples : List String)
    (stats : String → Nat) : Record :=
  { name := name, taxid := taxid, category := "bacteria",
    size := meanFloor (samples.map stats), source := "atb",
    method := "Average assembly size of " ++ toString samples.length
      ++ " AllTheBacteria samples" }

/-- build.py lines 205-215, one iteration of the insertion loop: an ATB
candidate resolved by `species2taxid` is assigned at its resolved taxid with
`genome_sizes[taxid] = {...}` — unconditionally, with no membership check on
the taxid. -/
def addAtbStep (taxids : Dict String) (stats : String → Nat)
    (acc : Dict Record) (p : String × List String) : Dict Record :=
  match dget taxids p.1 with
  | none => acc
  | some tx => dinsert acc tx (atbRecord p.1 tx p.2 stats)

/-- build.py lines 204-215: fold the ATB candidates into the merged table. -/
def addAtb (merged : Dict Record) (atb : Dict (List String))
    (taxids : Dict String) (stats : String → Nat) : Dict Record :=
  atb.foldl (addAtbStep taxids stats) merged

/-- build.py lines 145-215, the whole merge pipeline of `sizemeup_build`:
merge the user overrides under the NCBI table, build the name exclusion set,
filter the ATB species, and insert the resolved ATB records. -/
def sizemeupBuild (ncbi user : Dict Record) (species : Dict (List String))
    (taxids : Dict String) (stats : String → Nat) (minGenomes : Nat) :
    Dict Record :=
  let merged := mergeUser ncbi user
  let sl := speciesList merged
  addAtb merged (atbSpecies species sl minGenomes) taxids stats

/-!
Embedding of `src/sizemeup/utils.py` (`parse_sizes_file`) and of the query
path of `src/sizemeup/cli/sizemeup.py` (`sizemeup`, lines 101-184).

A sizes file is a list of lines.  Each data row is the dict built by
`dict(zip(col_names, vals))`, modelled as the association list `List.zip`,
which — like Python `zip` — silently stops at the shorter of the two lists.
-/

/-- The mutable state of `parse_sizes_file`'s line loop. -/
structure ParseState where
  genome_sizes : Dict (Dict String)
  taxid2name : Dict String
  version : Option String
  col_names : Option (List String)
deriving DecidableEq

/-- utils.py lines 34-43, one line of `parse_sizes_file`: a `#` line updates
the version, a line starting with `name` installs the column names, and any
other line is split on tabs and zipped positionally against the columns.  The
accesses `row["name"]` and `row["tax_id"]` raise a KeyError (`none`) when the
zipped row lacks those keys, and a data line before any header line raises a
TypeError from `zip(None, vals)` (`none`); no check relates the number of
fields to the number of columns. -/
def parseSizesLine (st : ParseState) (line : String) : Option ParseState :=
  if pyStartsWith line ("#") then
    some { st with version := some ((pySplit (pyStrip line) (' ')).getLastD ("")) }
  else if pyStartsWith line ("name") then
    some { st with col_names := some (pySplit (pyStrip line) ('\t')) }
  else
    match st.col_names with
    | none => none
    | some cols =>
      match dget (List.zip cols (pySplit (pyStrip line) ('\t'))) ("name") with
      | none => none
      | some nm =>
        match dget (List.zip cols (pySplit (pyStrip line) ('\t'))) ("tax_id") with
        | none => none
        | some tid =>
          some { st with
            genome_sizes := dinsert st.genome_sizes (pyLower nm)
              (List.zip cols (pySplit (pyStrip line) ('\t'))),
            taxid2name := dinsert st.taxid2name tid nm }

/-- The state before the first line of the file. -/
def initParseState : ParseState :=
  { genome_sizes := [], taxid2name := [], version := none, col_names := none }

/-- utils.py lines 27-45, `parse_sizes_file` over the lines of the file. -/
def parseSizesFile (lines : List String) : Option ParseState :=
  lines.foldl
    (fun acc line =>
      match acc with
      | none => none
      | some st => parseSizesLine st line)
    (some initParseState)

/-- sizemeup.py lines 102-109, the `final_output` dict: its six keys are fixed
for the whole run, so it is modelled as a fixed-field structure. -/
structure FinalOutput where
  name : String
  tax_id : String
  category : String
  size : String
  source : String
  method : String
deriving DecidableEq

/-- sizemeup.py lines 102-109: the sentinel values `final_output` starts
with. -/
def initialFinalOutput : FinalOutput :=
  { name := "UNKNOWN_SPECIES", tax_id := "UNKNOWN_TAXID",
    category := "UNKNOWN_CATEGORY", size := "0",
    source := "UNKNOWN_SOURCE", method := "UNKNOWN_METHOD" }

/-- sizemeup.py lines 114-131, the effective lowercased query: a purely
numeric query is resolved through the tax_id index (staying `None` on a miss),
a query naming an existing file contributes the second column of its second
line (`fileCol2 = some c` models that case), and any other query is used
directly. -/
def computeLcSpecies (t2n : Dict String) (query : String)
    (fileCol2 : Option String) : Option String :=
  if pyIsDigit query then
    match dget t2n query with
    | some nm => some (pyLower nm)
    | none => none
  else
    match fileCol2 with
    | some c => some (pyLower c)
    | none => some (pyLower query)

/-- sizemeup.py lines 111-149, the lookup once the sizes file exists and is
parsed: on a hit the six columns of the matched row are copied into
`final_output` (a row lacking one of them — e.g. `category` in a 5-column
file — raises a KeyError, modelled by `none`); on a miss only an error is
logged and the sentinel `final_output` stands. -/
def sizemeupQuery (gs : Dict (Dict String)) (t2n : Dict String)
    (query : String) (fileCol2 : Option String) : Option FinalOutput :=
  match computeLcSpecies t2n query fileCol2 with
  | none => some initialFinalOutput
  | some lc =>
    match dget gs lc with
    | none => some initialFinalOutput
    | some row =>
      match dget row ("name"), dget row ("tax_id"), dget row ("category"),
            dget row ("size"), dget row ("source"), dget row ("method") with
      | some a, some b, some c, some d, some e, some f =>
        some { name := a, tax_id := b, category := c, size := d,
               source := e, method := f }
      | _, _, _, _, _, _ => none

/-- sizemeup.py lines 180-184: the output file written at the end of every
query run — the fixed column header and a single data row holding
`final_output`'s values. -/
def queryOutputLines (fo : FinalOutput) : List String :=
  ["name\ttax_id\tcategory\tsize\tsource\tmethod",
   fo.name ++ "\t" ++ fo.tax_id ++ "\t" ++ fo.category ++ "\t" ++ fo.size
     ++ "\t" ++ fo.source ++ "\t" ++ fo.method]

/-!
Concrete inputs used by the evaluations and witnesses below.
-/

/-- An NCBI record at tax_id 5. -/
def ncbiRecC1 : Record :=
  { name := "Foo bar", taxid := "5", category := "bacteria", size := 1000,
    source := "ncbi", method := "automatic" }

/-- A user override at the same tax_id 5. -/
def userRecC1 : Record :=
  { name := "Foo baz", taxid := "5", category := "bacteria", size := 999,
    source := "user", method := "manual" }

/-- An NCBI source table holding only tax_id 5. -/
def ncbiC1 : Dict Record := [("5", ncbiRecC1)]

/-- A user source table holding only tax_id 5. -/
def userC1 : Dict Record := [("5", userRecC1)]

/-- One ATB species with one sample. -/
def speciesC1 : Dict (List String) := [("Qux corge", ["s1"])]

/-- A `species2taxid` response resolving that species to the already occupied
tax_id 5. -/
def taxidsC1 : Dict String := [("Qux corge", "5")]

/-- Assembly-stats total lengths for the samples of `speciesC1`. -/
def statsC1 : String → Nat := fun _ => 3000000

/-- One ATB species with two samples. -/
def speciesC3 : Dict (List String) := [("Grault sp", ["s1", "s2"])]

/-- A `species2taxid` response resolving that species to a fresh tax_id 9. -/
def taxidsC3 : Dict String := [("Grault sp", "9")]

/-- Assembly-stats total lengths 100 and 101 for the two samples. -/
def statsC3 : String → Nat := fun s => if s = "s1" then 100 else 101

/-- The five column names of a basic (category-less) sizes file. -/
def fiveCols : List String := ["name", "tax_id", "size", "source", "method"]

/-- A parse state that has just read the five-column header. -/
def fiveColHeaderState : ParseState :=
  { initParseState with col_names := some fiveCols }

/-- The five-column sizes file shown in the docstring of utils.py
(`parse_sizes_file`), restricted to its first data row. -/
def fiveColFile : List String :=
  ["# sizemeup-build 2024.09.29",
   "name\ttax_id\tsize\tsource\tmethod",
   "Azorhizobium caulinodans\t7\t5636513\tncbi\tautomatic"]

/-- The parse state produced by `fiveColFile`. -/
def fiveColState : ParseState :=
  { genome_sizes := [("azorhizobium caulinodans",
      [("name", "Azorhizobium caulinodans"), ("tax_id", "7"),
       ("size", "5636513"), ("source", "ncbi"), ("method", "automatic")])],
    taxid2name := [("7", "Azorhizobium caulinodans")],
    version := some ("2024.09.29"),
    col_names := some fiveCols }

/-- The same table in the six-column format written by `sizemeup_build`. -/
def sixColFile : List String :=
  ["# sizemeup-build 2024.09.29",
   "name\ttax_id\tcategory\tsize\tsource\tmethod",
   "Azorhizobium caulinodans\t7\tbacteria\t5636513\tncbi\tautomatic"]

/-- The parse state produced by `sixColFile`. -/
def sixColState : ParseState :=
  { genome_sizes := [("azorhizobium caulinodans",
      [("name", "Azorhizobium caulinodans"), ("tax_id", "7"),
       ("category", "bacteria"), ("size", "5636513"), ("source", "ncbi"),
       ("method", "automatic")])],
    taxid2name := [("7", "Azorhizobium caulinodans")],
    version := some ("2024.09.29"),
    col_names := some ["name", "tax_id", "category", "size", "source", "method"] }

/-!
Lemmas about the dict model.
-/

theorem dget_nil {α : Type} (t : String) : dget ([] : Dict α) t = none := rfl

theorem dget_cons {α : Type} (q : String × α) (d : Dict α) (t : String) :
    dget (q :: d) t = if q.1 = t then some q.2 else dget d t := rfl

theorem dmem_cons {α : Type} (q : String × α) (d : Dict α) (k : String) :
    dmem (q :: d) k = if q.1 = k then true else dmem d k := rfl

/-- A key reported absent has no binding. -/
theorem dget_of_dmem_false {α : Type} {d : Dict α} {k : String}
    (h : dmem d k = false) : dget d k = none := by
  induction d with
  | nil => rfl
  | cons q rest ih =>
    rw [dmem_cons] at h
    rw [dget_cons]
    by_cases hq : q.1 = k
    · rw [if_pos hq] at h
      exact absurd h (by simp)
    · rw [if_neg hq] at h
      rw [if_neg hq]
      exact ih h

/-- Lookup distributes over list append. -/
theorem dget_append {α : Type} (d l : Dict α) (t : String) :
    dget (d ++ l) t = match dget d t with
      | some v => some v
      | none => dget l t := by
  induction d with
  | nil => rfl
  | cons q rest ih =>
    rw [List.cons_append, dget_cons, dget_cons]
    by_cases hq : q.1 = t
    · rw [if_pos hq, if_pos hq]
    · rw [if_neg hq, if_neg hq]
      exact ih

/-- Looking up the key overwritten by the in-place map gives the new value. -/
theorem dget_map_update_self {α : Type} {d : Dict α} {k : String} (v : α)
    (h : dmem d k = true) :
    dget (d.map (fun p => if p.1 = k then (k, v) else p)) k = some v := by
  induction d with
  | nil => exact absurd h (by simp [dmem])
  | cons q rest ih =>
    rw [dmem_cons] at h
    rw [List.map_cons]
    by_cases hq : q.1 = k
    · rw [if_pos hq, dget_cons]
      simp
    · rw [if_neg hq] at h
      rw [if_neg hq, dget_cons]
      rw [if_neg hq]
      exact ih h

/-- Looking up a different key is unaffected by the in-place map. -/
theorem dget_map_update_other {α : Type} (d : Dict α) (k : String) (v : α)
    {t : String} (h : t ≠ k) :
    dget (d.map (fun p => if p.1 = k then (k, v) else p)) t = dget d t := by
  induction d with
  | nil => rfl
  | cons q rest ih =>
    rw [List.map_cons]
    by_cases hq : q.1 = k
    · rw [if_pos hq, dget_cons, dget_cons]
      have hk : k ≠ t := fun he => h he.symm
      have hq1 : ¬ q.1 = t := by rw [hq]; exact hk
      rw [if_neg hk, if_neg hq1]
      exact ih
    · rw [if_neg hq, dget_cons, dget_cons]
      by_cases hqt : q.1 = t
      · rw [if_pos hqt, if_pos hqt]
      · rw [if_neg hqt, if_neg hqt]
        exact ih

/-- Characterisation of lookup after a dict assignment. -/
theorem dget_dinsert {α : Type} (d : Dict α) (k : String) (v : α) (t : String) :
    dget (dinsert d k v) t = if t = k then some v else dget d t := by
  unfold dinsert
  cases hmem : dmem d k with
  | false =>
    rw [if_neg (by simp [hmem]), dget_append]
    by_cases ht : t = k
    · subst ht
      rw [dget_of_dmem_false hmem]
      simp [dget]
    · rw [if_neg ht]
      cases hd : dget d t with
      | some w => rfl
      | none =>
        have : dget ([(k, v)] : Dict α) t = none := by
          rw [dget_cons, if_neg (fun he => ht he.symm)]
          rfl
        simp [this]
  | true =>
    rw [if_pos (by simp [hmem])]
    by_cases ht : t = k
    · subst ht
      rw [if_pos rfl]
      exact dget_map_update_self v hmem
    · rw [if_neg ht]
      exact dget_map_update_other d k v ht

/-- A successful lookup exhibits a binding in the list. -/
theorem dget_mem {α : Type} {d : Dict α} {t : String} {r : α}
    (h : dget d t = some r) : (t, r) ∈ d := by
  induction d with
  | nil => cases h
  | cons q rest ih =>
    rw [dget_cons] at h
    by_cases hq : q.1 = t
    · rw [if_pos hq] at h
      have hr : q.2 = r := by injection h
      have : (t, r) = q := by
        cases q
        simp at hq hr
        simp [hq, hr]
      rw [this]
      exact List.mem_cons_self _ _
    · rw [if_neg hq] at h
      exact List.mem_cons_of_mem _ (ih h)

/-- Every entry of the dict after an assignment is the assigned pair or an
original entry. -/
theorem mem_dinsert {α : Type} {d : Dict α} {k : String} {v : α}
    {q : String × α} (h : q ∈ dinsert d k v) : q = (k, v) ∨ q ∈ d := by
  unfold dinsert at h
  by_cases hmem : dmem d k = true
  · rw [if_pos hmem] at h
    rcases List.mem_map.mp h with ⟨a, ha, hfa⟩
    by_cases hk : a.1 = k
    · left
      rw [← hfa, if_pos hk]
    · right
      rw [← hfa, if_neg hk]
      exact ha
  · rw [if_neg hmem] at h
    rcases List.mem_append.mp h with h1 | h1
    · exact Or.inr h1
    · left
      simpa using h1

/-!
Lemmas about the build pipeline and the taxonomy row loops.
-/

/-- Every record of the table produced by `addAtb` is either a record of the
input table or the ATB record of one of the candidates, inserted at its
resolved taxid. -/
theorem addAtb_dget {merged : Dict Record} {atb : Dict (List String)}
    {taxids : Dict String} {stats : String → Nat} {t : String} {r : Record}
    (h : dget (addAtb merged atb taxids stats) t = some r) :
    dget merged t = some r ∨
      ∃ p, p ∈ atb ∧ ∃ tx, dget taxids p.1 = some tx ∧
        r = atbRecord p.1 tx p.2 stats := by
  induction atb generalizing merged with
  | nil => exact Or.inl h
  | cons p rest ih =>
    rw [addAtb, List.foldl_cons] at h
    rcases ih (show dget (addAtb (addAtbStep taxids stats merged p) rest taxids stats) t
        = some r from h) with hL | ⟨q, hq, tx, htx, hr⟩
    · unfold addAtbStep at hL
      cases hdg : dget taxids p.1 with
      | none =>
        rw [hdg] at hL
        exact Or.inl hL
      | some tx =>
        rw [hdg] at hL
        rw [dget_dinsert] at hL
        by_cases ht : t = tx
        · rw [if_pos ht] at hL
          have hr : r = atbRecord p.1 tx p.2 stats := by
            injection hL with he
            exact he.symm
          exact Or.inr ⟨p, List.mem_cons_self _ _, tx, hdg, hr⟩
        · rw [if_neg ht] at hL
          exact Or.inl hL
    · exact Or.inr ⟨q, List.mem_cons_of_mem _ hq, tx, htx, hr⟩

/-- Every ATB candidate kept by the filter loop has a name outside the
exclusion set. -/
theorem atbSpecies_not_excluded {species : Dict (List String)}
    {sl : Dict String} {minGenomes : Nat} {q : String × List String}
    (h : q ∈ atbSpecies species sl minGenomes) : dmem sl q.1 = false := by
  have aux : ∀ (l : Dict (List String)) (acc : Dict (List String)),
      (∀ p ∈ acc, dmem sl p.1 = false) →
      ∀ p ∈ List.foldl (atbStep sl minGenomes) acc l, dmem sl p.1 = false := by
    intro l
    induction l with
    | nil =>
      intro acc hacc p hp
      exact hacc p hp
    | cons x rest ih =>
      intro acc hacc p hp
      rw [List.foldl_cons] at hp
      refine ih (atbStep sl minGenomes acc x) ?_ p hp
      intro p2 hp2
      unfold atbStep at hp2
      cases hx : dmem sl x.1 with
      | true =>
        rw [if_pos (by simp [hx])] at hp2
        exact hacc p2 hp2
      | false =>
        rw [if_neg (by simp [hx])] at hp2
        cases hpass : strainPass x.1 with
        | false =>
          rw [if_neg (by simp [hpass])] at hp2
          exact hacc p2 hp2
        | true =>
          rw [if_pos (by simp [hpass])] at hp2
          by_cases hlen : minGenomes ≤ x.2.length
          · rw [if_pos hlen] at hp2
            rcases mem_dinsert hp2 with he | hin
            · rw [he]
              exact hx
            · exact hacc p2 hin
          · rw [if_neg hlen] at hp2
            exact hacc p2 hp2
  exact aux species [] (by intro p hp; cases hp) q h

/-- Once the `taxid2name` row loop has failed, it stays failed. -/
theorem taxid2nameFold_none (rows : List TaxNode) :
    rows.foldl taxid2nameStep none = none := by
  induction rows with
  | nil => rfl
  | cons r rest ih =>
    rw [List.foldl_cons]
    exact ih

/-- A node lacking the `taxonomy` field makes the whole `taxid2name` row loop
fail, whatever the accumulated dictionary. -/
theorem taxid2nameFold_some_none {rows : List TaxNode}
    (h : ∃ r, r ∈ rows ∧ r.taxonomy = none) :
    ∀ d, rows.foldl taxid2nameStep (some d) = none := by
  induction rows with
  | nil =>
    rcases h with ⟨r, hr, _⟩
    cases hr
  | cons x rest ih =>
    intro d
    rw [List.foldl_cons]
    cases hx : x.taxonomy with
    | none =>
      have : taxid2nameStep (some d) x = none := by
        unfold taxid2nameStep
        rw [hx]
      rw [this]
      exact taxid2nameFold_none rest
    | some t =>
      have hstep : taxid2nameStep (some d) x
          = some (dinsert d (toString t.tax_id)
              (t.organism_name, categoryOf t.lineage)) := by
        unfold taxid2nameStep
        rw [hx]
      rw [hstep]
      rcases h with ⟨r, hr, hrnone⟩
      rcases List.mem_cons.mp hr with he | hin
      · rw [he] at hrnone
        rw [hrnone] at hx
        cases hx
      · exact ih ⟨r, hin, hrnone⟩ _

/-- The `species2taxid` row loop ignores exactly the nodes lacking the
`taxonomy` field: folding over a response equals folding over the response
restricted to the nodes that carry the field. -/
theorem species2taxidFold_filter (rows : List TaxNode) :
    ∀ acc, rows.foldl species2taxidStep acc
      = (rows.filter (fun r => r.taxonomy.isSome)).foldl species2taxidStep acc := by
  induction rows with
  | nil => intro acc; rfl
  | cons x rest ih =>
    intro acc
    rw [List.foldl_cons]
    cases hx : x.taxonomy with
    | none =>
      have hstep : species2taxidStep acc x = acc := by
        unfold species2taxidStep
        rw [hx]
      have hfil : (x :: rest).filter (fun r => r.taxonomy.isSome)
          = rest.filter (fun r => r.taxonomy.isSome) := by
        rw [List.filter_cons]
        simp [hx]
      rw [hstep, hfil]
      exact ih acc
    | some t =>
      have hfil : (x :: rest).filter (fun r => r.taxonomy.isSome)
          = x :: rest.filter (fun r => r.taxonomy.isSome) := by
        rw [List.filter_cons]
        simp [hx]
      rw [hfil, List.foldl_cons]
      exact ih _

/-!
The claims.
-/

/-- Claim C1: in the final merged table, source precedence NCBI over user over
assembly-stats-derived would require that an atb record never replace a record
contributed by NCBI or by the user overrides.  The claim fails in the code:
the ATB insertion loop (build.py line 208) assigns `genome_sizes[taxid]`
unconditionally once `species2taxid` resolves a candidate, so with tax_id 5
held by both the NCBI source and the user source, an ATB candidate whose
distinct name passes the name filter and resolves to tax_id 5 replaces the
NCBI record — contradicting the claim and the comments at build.py lines
164-165 and 175-176. -/
theorem claim1_atb_overwrites_ncbi_and_user :
    dget (sizemeupBuild ncbiC1 userC1 speciesC1 taxidsC1 statsC1 1) ("5")
      = some (atbRecord ("Qux corge") ("5") ["s1"] statsC1) ∧
    (atbRecord ("Qux corge") ("5") ["s1"] statsC1).source = "atb" ∧
    dget ncbiC1 ("5") = some ncbiRecC1 ∧
    dget userC1 ("5") = some userRecC1 ∧
    ncbiRecC1.source = "ncbi" ∧ userRecC1.source = "user" :=
  ⟨rfl, rfl, rfl, rfl, rfl, rfl⟩

/-- Claim C2: for a resolved node the category is the comma-separated join, in
the fixed table's order, of the names whose identifier occurs in the lineage —
a lineage containing 2 and 2157 gives the string joining bacteria and archaea.
But the claim's zero-match case fails in the code: the initial unknown stored
at ncbi.py line 190 is unconditionally overwritten by the join at line 197, so
a node whose lineage matches none of the seven identifiers receives the empty
string instead. -/
theorem claim2_empty_category_on_no_match :
    taxid2nameRows [⟨some ⟨7, "Azorhizobium caulinodans", [131567, 1]⟩⟩]
      = some [("7", ("Azorhizobium caulinodans", ""))] ∧
    categoryOf [131567, 2, 2157] = "bacteria,archaea" :=
  ⟨rfl, rfl⟩

/-- Claim C3 counterexample: on assembly lengths 100 and 101 the Builder
stores size 100 — the floor of the mean — not the 150 asserted by the
claim. -/
theorem claim3_counterexample_mean_100_101 :
    dget (sizemeupBuild [] [] speciesC3 taxidsC3 statsC3 1) ("9")
      = some (atbRecord ("Grault sp") ("9") ["s1", "s2"] statsC3) ∧
    (atbRecord ("Grault sp") ("9") ["s1", "s2"] statsC3).size = 100 :=
  ⟨rfl, rfl⟩

/-- Claim C3 as amended: every atb-sourced record of the final table carries
as `size` the floor of the arithmetic mean of the `total_length` values of
that candidate's samples; assembly lengths 100, 200, 300 give 200, and 100,
101 give 100 (not 150). -/
theorem claim3_amended_size_floor_mean (ncbi user : Dict Record)
    (species : Dict (List String)) (taxids : Dict String)
    (stats : String → Nat) (minGenomes : Nat) (t : String) (r : Record)
    (hsrc : ∀ p ∈ mergeUser ncbi user, (Prod.snd p).source ≠ "atb")
    (hget : dget (sizemeupBuild ncbi user species taxids stats minGenomes) t
      = some r)
    (hatb : r.source = "atb") :
    (∃ p, p ∈ atbSpecies species (speciesList (mergeUser ncbi user)) minGenomes ∧
      r.name = p.1 ∧ r.size = meanFloor (p.2.map stats)) ∧
    meanFloor [100, 200, 300] = 200 ∧ meanFloor [100, 101] = 100 := by
  refine ⟨?_, rfl, rfl⟩
  simp only [sizemeupBuild] at hget
  rcases addAtb_dget hget with hL | ⟨p, hp, tx, htx, hr⟩
  · exact absurd hatb (hsrc _ (dget_mem hL))
  · exact ⟨p, hp, by rw [hr]; rfl, by rw [hr]; rfl⟩

/-- Witness for the amended claim C3, at a concrete build in which the single
ATB candidate has samples of lengths 100 and 101. -/
theorem claim3_amended_witness :
    (∀ p ∈ mergeUser ncbiC1 [], (Prod.snd p).source ≠ "atb") ∧
    (dget (sizemeupBuild ncbiC1 [] speciesC3 taxidsC3 statsC3 1) ("9")
      = some (atbRecord ("Grault sp") ("9") ["s1", "s2"] statsC3)) ∧
    ((∃ p, p ∈ atbSpecies speciesC3 (speciesList (mergeUser ncbiC1 [])) 1 ∧
        (atbRecord ("Grault sp") ("9") ["s1", "s2"] statsC3).name = p.1 ∧
        (atbRecord ("Grault sp") ("9") ["s1", "s2"] statsC3).size
          = meanFloor (p.2.map statsC3)) ∧
      meanFloor [100, 200, 300] = 200 ∧ meanFloor [100, 101] = 100) :=
  ⟨by decide, rfl,
   claim3_amended_size_floor_mean ncbiC1 [] speciesC3 taxidsC3 statsC3 1
     ("9") (atbRecord ("Grault sp") ("9") ["s1", "s2"] statsC3)
     (by decide) rfl rfl⟩

/-- Claim C4: the strain-name filter of the assembly-stats step rejects a
candidate name exactly when the name contains both an underscore and a digit;
in particular Escherichia coli and strain_X pass while E_coli_123 is
rejected. -/
theorem claim4_strain_filter_iff (name : String) :
    (strainPass name = false ↔
      (pyContainsChar name ('_') = true ∧ pyHasDigit name = true)) ∧
    strainPass ("Escherichia coli") = true ∧
    strainPass ("E_coli_123") = false ∧
    strainPass ("strain_X") = true := by
  refine ⟨?_, rfl, rfl, rfl⟩
  unfold strainPass
  cases pyContainsChar name ('_') <;> cases pyHasDigit name <;> simp

/-- Witness instantiating claim C4 at a concrete name. -/
theorem claim4_strain_filter_iff_witness :
    (strainPass ("E_coli_123") = false ↔
      (pyContainsChar ("E_coli_123") ('_') = true ∧
       pyHasDigit ("E_coli_123") = true)) ∧
    strainPass ("Escherichia coli") = true ∧
    strainPass ("E_coli_123") = false ∧
    strainPass ("strain_X") = true :=
  claim4_strain_filter_iff ("E_coli_123")

/-- Claim C5: exclusion by name — every atb-sourced record of the final table
has a name outside the exclusion set of NCBI/user names, so an assembly-stats
species whose name equals (case-sensitively) the name of a record contributed
by NCBI or the user overrides never appears as an atb-sourced record, whatever
the minimum-genome threshold. -/
theorem claim5_exclusion_by_name (ncbi user : Dict Record)
    (species : Dict (List String)) (taxids : Dict String)
    (stats : String → Nat) (minGenomes : Nat) (t : String) (r : Record)
    (hsrc : ∀ p ∈ mergeUser ncbi user, (Prod.snd p).source ≠ "atb")
    (hget : dget (sizemeupBuild ncbi user species taxids stats minGenomes) t
      = some r)
    (hatb : r.source = "atb") :
    dmem (speciesList (mergeUser ncbi user)) r.name = false := by
  simp only [sizemeupBuild] at hget
  rcases addAtb_dget hget with hL | ⟨p, hp, tx, htx, hr⟩
  · exact absurd hatb (hsrc _ (dget_mem hL))
  · have hx := atbSpecies_not_excluded hp
    rw [hr]
    exact hx

/-- Witness for claim C5, at a concrete build with one NCBI record and one
non-conflicting ATB candidate. -/
theorem claim5_exclusion_by_name_witness :
    (∀ p ∈ mergeUser ncbiC1 [], (Prod.snd p).source ≠ "atb") ∧
    (dget (sizemeupBuild ncbiC1 [] speciesC3 taxidsC3 statsC3 1) ("9")
      = some (atbRecord ("Grault sp") ("9") ["s1", "s2"] statsC3)) ∧
    dmem (speciesList (mergeUser ncbiC1 []))
      (atbRecord ("Grault sp") ("9") ["s1", "s2"] statsC3).name = false :=
  ⟨by decide, rfl,
   claim5_exclusion_by_name ncbiC1 [] speciesC3 taxidsC3 statsC3 1
     ("9") (atbRecord ("Grault sp") ("9") ["s1", "s2"] statsC3)
     (by decide) rfl rfl⟩

/-- Claim C6 counterexample: on a response whose second node lacks the
taxonomy field, species2taxid still returns the mapping of exactly the
resolvable node, but taxid2name fails with a KeyError (modelled `none`)
instead of returning that mapping — the skip guard exists only in
species2taxid. -/
theorem claim6_counterexample_taxid2name_raises :
    taxid2nameRows [⟨some ⟨7, "Foo bar", [2]⟩⟩, ⟨none⟩] = none ∧
    species2taxidRows [⟨some ⟨7, "Foo bar", [2]⟩⟩, ⟨none⟩] = [("Foo bar", "7")] :=
  ⟨rfl, rfl⟩

/-- Claim C6 as amended: only species2taxid skips response nodes lacking the
taxonomy field — its result is the fold over exactly the resolvable nodes —
while taxid2name fails on every response containing such a node. -/
theorem claim6_amended_only_species2taxid_skips (rows : List TaxNode)
    (h : ∃ r, r ∈ rows ∧ r.taxonomy = none) :
    taxid2nameRows rows = none ∧
    species2taxidRows rows
      = species2taxidRows (rows.filter (fun r => r.taxonomy.isSome)) := by
  constructor
  · exact taxid2nameFold_some_none h []
  · exact species2taxidFold_filter rows []

/-- Witness for the amended claim C6, at a one-node response lacking the
taxonomy field. -/
theorem claim6_amended_witness :
    (∃ r, r ∈ [TaxNode.mk none] ∧ r.taxonomy = none) ∧
    (taxid2nameRows [TaxNode.mk none] = none ∧
     species2taxidRows [TaxNode.mk none]
       = species2taxidRows ([TaxNode.mk none].filter (fun r => r.taxonomy.isSome))) :=
  ⟨⟨TaxNode.mk none, List.mem_singleton.mpr rfl, rfl⟩,
   claim6_amended_only_species2taxid_skips [TaxNode.mk none]
     ⟨TaxNode.mk none, List.mem_singleton.mpr rfl, rfl⟩⟩

/-- Claim C7 counterexample: under the five-column header a data line with
only three fields is not rejected — `parse_sizes_file` succeeds, silently
storing the truncated row (the `source` and `method` columns are simply
absent) with no malformed-row error. -/
theorem claim7_counterexample_truncated_row :
    parseSizesFile ["name\ttax_id\tsize\tsource\tmethod", "Foo\t7\t100"]
      = some { genome_sizes :=
                 [("foo", [("name", "Foo"), ("tax_id", "7"), ("size", "100")])],
               taxid2name := [("7", "Foo")],
               version := none,
               col_names := some fiveCols } :=
  rfl

/-- Claim C7 as amended: the parser performs no row-shape check — a data line
(neither comment nor header) is zipped positionally against the header
columns, silently truncating whichever side is longer, and is accepted
whenever the zipped row still contains the name and tax_id keys. -/
theorem claim7_amended_zip_truncates (st : ParseState) (cols : List String)
    (line : String) (nm tid : String)
    (hhash : pyStartsWith line ("#") = false)
    (hname : pyStartsWith line ("name") = false)
    (hcols : st.col_names = some cols)
    (hnm : dget (List.zip cols (pySplit (pyStrip line) ('\t'))) ("name")
      = some nm)
    (htid : dget (List.zip cols (pySplit (pyStrip line) ('\t'))) ("tax_id")
      = some tid) :
    parseSizesLine st line
      = some { st with
          genome_sizes := dinsert st.genome_sizes (pyLower nm)
            (List.zip cols (pySplit (pyStrip line) ('\t'))),
          taxid2name := dinsert st.taxid2name tid nm } := by
  unfold parseSizesLine
  rw [if_neg (by simp [hhash]), if_neg (by simp [hname]), hcols]
  simp [hnm, htid]

/-- Witness for the amended claim C7: a three-field data line under the
five-column header. -/
theorem claim7_amended_witness :
    (pyStartsWith ("Foo\t7\t100") ("#") = false) ∧
    (pyStartsWith ("Foo\t7\t100") ("name") = false) ∧
    (fiveColHeaderState.col_names = some fiveCols) ∧
    (dget (List.zip fiveCols (pySplit (pyStrip ("Foo\t7\t100")) ('\t'))) ("name")
      = some ("Foo")) ∧
    (dget (List.zip fiveCols (pySplit (pyStrip ("Foo\t7\t100")) ('\t'))) ("tax_id")
      = some ("7")) ∧
    parseSizesLine fiveColHeaderState ("Foo\t7\t100")
      = some { fiveColHeaderState with
          genome_sizes := dinsert fiveColHeaderState.genome_sizes
            (pyLower ("Foo"))
            (List.zip fiveCols (pySplit (pyStrip ("Foo\t7\t100")) ('\t'))),
          taxid2name := dinsert fiveColHeaderState.taxid2name ("7") ("Foo") } :=
  ⟨rfl, rfl, rfl, rfl, rfl,
   claim7_amended_zip_truncates fiveColHeaderState fiveCols ("Foo\t7\t100")
     ("Foo") ("7") rfl rfl rfl rfl rfl⟩

/-- Claim C8: a non-2xx response should raise a distinct fetch-failed error
instead of being written to the destination.  The claim fails in the code:
`download_genome_sizes` writes `requests.get(...).content` without ever
consulting the status (there is no `raise_for_status` as in the taxonomy
functions), so for every status code — 2xx or not — the response body becomes
the destination file's contents. -/
theorem claim8_nonsuccess_body_written (status : Nat) (body : String) :
    download_genome_sizes none false { status := status, body := body } = body :=
  rfl

/-- Witness instantiating claim C8 at a 404 response against an absent
destination file. -/
theorem claim8_nonsuccess_body_written_witness :
    download_genome_sizes none false { status := 404, body := "Not Found" }
      = "Not Found" :=
  claim8_nonsuccess_body_written 404 ("Not Found")

/-- Claim C9: the lookup should support both persisted-table variants.  The
claim fails in the code: the six-column variant works — parsing the file and
querying a present name returns the full record — but on the five-column
variant (the very format shown in the docstring of utils.py) the same hit
raises a KeyError at `final_output['category'] = ...` (sizemeup.py line 141),
modelled by `none`, instead of returning the record's fields. -/
theorem claim9_five_column_hit_keyerror :
    parseSizesFile fiveColFile = some fiveColState ∧
    sizemeupQuery fiveColState.genome_sizes fiveColState.taxid2name
      ("Azorhizobium caulinodans") none = none ∧
    parseSizesFile sixColFile = some sixColState ∧
    sizemeupQuery sixColState.genome_sizes sixColState.taxid2name
      ("Azorhizobium caulinodans") none
      = some { name := "Azorhizobium caulinodans", tax_id := "7",
               category := "bacteria", size := "5636513", source := "ncbi",
               method := "automatic" } :=
  ⟨rfl, rfl, rfl, rfl⟩

/-- Claim C10: when the sizes file parses but the query misses — a purely
numeric query absent from the tax_id index, or a name query whose lowercased
form is absent from the name index — the lookup does not raise: the sentinel
final_output stands, and the written output file is the fixed column header
plus exactly one data row holding the sentinel values. -/
theorem claim10_miss_writes_sentinel (gs : Dict (Dict String))
    (t2n : Dict String) (query : String)
    (h : (pyIsDigit query = true ∧ dget t2n query = none) ∨
         (pyIsDigit query = false ∧ dget gs (pyLower query) = none)) :
    sizemeupQuery gs t2n query none = some initialFinalOutput ∧
    queryOutputLines initialFinalOutput
      = ["name\ttax_id\tcategory\tsize\tsource\tmethod",
         "UNKNOWN_SPECIES\tUNKNOWN_TAXID\tUNKNOWN_CATEGORY\t0\tUNKNOWN_SOURCE\tUNKNOWN_METHOD"] := by
  refine ⟨?_, rfl⟩
  unfold sizemeupQuery computeLcSpecies
  rcases h with ⟨h1, h2⟩ | ⟨h1, h2⟩
  · simp [h1, h2]
  · simp [h1, h2]

/-- Witness for claim C10: an empty table missed by a species-name query. -/
theorem claim10_miss_witness :
    ((pyIsDigit ("Staphylococcus aureus") = true ∧
        dget ([] : Dict String) ("Staphylococcus aureus") = none) ∨
      (pyIsDigit ("Staphylococcus aureus") = false ∧
        dget ([] : Dict (Dict String)) (pyLower ("Staphylococcus aureus")) = none)) ∧
    (sizemeupQuery [] [] ("Staphylococcus aureus") none = some initialFinalOutput ∧
     queryOutputLines initialFinalOutput
       = ["name\ttax_id\tcategory\tsize\tsource\tmethod",
          "UNKNOWN_SPECIES\tUNKNOWN_TAXID\tUNKNOWN_CATEGORY\t0\tUNKNOWN_SOURCE\tUNKNOWN_METHOD"]) :=
  ⟨Or.inr ⟨by decide, rfl⟩,
   claim10_miss_writes_sentinel [] [] ("Staphylococcus aureus")
     (Or.inr ⟨by decide, rfl⟩)⟩

end Sizemeup
